import Mathlib

/-
Verification development for the quantum-noise-simulator repository.

The embedding translates `src/utils/iqft.py` (class `IQFT`) and the
circuit-building entry point of `src/simulator.py` (`QFTSimulator.build_circuit`)
into Lean.  Gate angles are rational multiples of pi: a gate carrying the
coefficient `a : Rat` denotes the physical angle `a * pi`.  All angles produced
by the IQFT builder are of this form, so the embedding is exact.
-/

/-- Gates appearing in circuits built by the IQFT builder, mirroring the qiskit
instructions used in `add_iqft_circuit`: `h`, `p`, `cp`, `swap`, `barrier`,
`save_density_matrix` and `measure_all`.  Phase angles are stored as the
rational coefficient of pi. -/
inductive Gate where
  | h (q : Nat)
  | p (angle : ℚ) (q : Nat)
  | cp (angle : ℚ) (control target : Nat)
  | swap (a b : Nat)
  | barrier
  | saveDensityMatrix
  | measureAll
  deriving DecidableEq, Repr

/-- Instruction name of a gate, as qiskit names it (used by
`NoiseModel.add_all_qubit_quantum_error(error, ['h'])` to attach noise). -/
def Gate.name : Gate → String
  | .h _ => "h"
  | .p _ _ => "p"
  | .cp _ _ _ => "cp"
  | .swap _ _ => "swap"
  | .barrier => "barrier"
  | .saveDensityMatrix => "save_density_matrix"
  | .measureAll => "measure"

/-- Whether a gate is a Hadamard gate. -/
def Gate.isH : Gate → Bool
  | .h _ => true
  | _ => false

/-- Errors raised by the Python code paths we model: `ValueError` from `int()`
and from the qubit-count range check, `TypeError` from subscripting `None`,
and `KeyError` from a missing dictionary key. -/
inductive PyError where
  | valueError (msg : String)
  | typeError
  | keyError (key : String)
  deriving DecidableEq, Repr

/-- Digit run of a Python integer literal: one or more ASCII digits where a
single underscore may separate two digits (as accepted by Python `int`). -/
def digitGroup : List Char → Bool
  | [] => false
  | [c] => c.isDigit
  | c :: '_' :: rest => c.isDigit && digitGroup rest
  | c :: rest => c.isDigit && digitGroup rest

/-- Numeric value of a list of ASCII digits. -/
def digitsToNat (l : List Char) : Nat :=
  l.foldl (fun a c => 10 * a + (c.toNat - 48)) 0

/-- Model of Python `int(s)` on a string: strip surrounding whitespace, accept
an optional sign followed by a digit run, and return `none` where Python
raises `ValueError`. -/
def pyInt (s : String) : Option Int :=
  let t := ((s.toList.dropWhile Char.isWhitespace).reverse.dropWhile
    Char.isWhitespace).reverse
  match t with
  | '+' :: rest =>
      if digitGroup rest then
        some ((digitsToNat (rest.filter fun c => c ≠ '_') : Int))
      else none
  | '-' :: rest =>
      if digitGroup rest then
        some (-(digitsToNat (rest.filter fun c => c ≠ '_') : Int))
      else none
  | rest =>
      if digitGroup rest then
        some ((digitsToNat (rest.filter fun c => c ≠ '_') : Int))
      else none

/-- First loop of `add_iqft_circuit`: `for qubit in range(self.n): qc.h(qubit)`. -/
def hLayer (n : Nat) : List Gate := (List.range n).map Gate.h

/-- Second loop of `add_iqft_circuit`.  `curr` is `curr_num`; the loop visits
the given qubit list emitting `qc.p(int(state) * pi / curr_num, qubit)` and
doubling `curr_num` after each qubit. -/
def phaseLoop (k : ℤ) : List Nat → Nat → List Gate
  | [], _ => []
  | q :: qs, curr => Gate.p ((k : ℚ) / (curr : ℚ)) q :: phaseLoop k qs (curr * 2)

/-- The phase-rotation layer: qubits visited in `reversed(range(n))` with
`curr_num` starting at 1. -/
def phaseLayer (n : Nat) (k : ℤ) : List Gate :=
  phaseLoop k (List.range n).reverse 1

/-- Third loop of `add_iqft_circuit`:
`for qubit in range(self.n // 2): qc.swap(qubit, self.n - qubit - 1); qc.barrier()`. -/
def swapLayer (n : Nat) : List Gate :=
  (List.range (n / 2)).flatMap fun q => [Gate.swap q (n - q - 1), Gate.barrier]

/-- The nested helper `add_iqft_rotations`: for each target `t` in `range(n)`,
controlled-phase gates `cp(-pi / 2 ** (target - control), control, target)` for
`control` in `reversed(range(target))`, then `h(target)`. -/
def iqftRotations (n : Nat) : List Gate :=
  (List.range n).flatMap fun t =>
    ((List.range t).reverse.map fun c =>
      Gate.cp (-(1 : ℚ) / 2 ^ (t - c)) c t) ++ [Gate.h t]

/-- The algorithm-specific part of the IQFT circuit (lines 36-56 of
`src/utils/iqft.py`), given the already-parsed integer `k = int(state)`. -/
def iqftCore (n : Nat) (k : ℤ) : List Gate :=
  hLayer n ++ phaseLayer n k ++ swapLayer n ++ iqftRotations n

/-- Full gate list emitted by `add_iqft_circuit`: algorithm gates, then
`save_density_matrix` iff `self.noise`, then `measure_all` iff `self.measure`. -/
def iqftGates (n : Nat) (k : ℤ) (noise meas : Bool) : List Gate :=
  iqftCore n k ++ (if noise then [Gate.saveDensityMatrix] else [])
    ++ (if meas then [Gate.measureAll] else [])

/-- `IQFT.add_iqft_circuit`: parses `self.state` with `int` (a failure there is
Python `ValueError`, aborting the build) and otherwise emits the gate list. -/
def addIqftCircuit (n : Nat) (state : String) (noise meas : Bool) :
    Except PyError (List Gate) :=
  match pyInt state with
  | none => .error (.valueError "invalid literal for int")
  | some k => .ok (iqftGates n k noise meas)

/-- Concrete 2x2 real matrix with rational entries, modelling the numpy arrays
built in `IQFT.simulate` (`np.eye(2)`, `[[0, 1], [1, 0]]`, `[[1, 0], [0, -1]]`).
`a b / c d` are the entries row by row. -/
structure Mat2 where
  a : ℚ
  b : ℚ
  c : ℚ
  d : ℚ
  deriving DecidableEq, Repr

/-- The identity matrix `np.eye(2)`. -/
def eye2 : Mat2 := ⟨1, 0, 0, 1⟩

/-- The Pauli X matrix `np.array([[0, 1], [1, 0]])`. -/
def xMat : Mat2 := ⟨0, 1, 1, 0⟩

/-- The Pauli Z matrix `np.array([[1, 0], [0, -1]])`. -/
def zMat : Mat2 := ⟨1, 0, 0, -1⟩

/-- A scaled matrix `sqrt(sqCoeff) * mat`, the form of every Kraus operator
constructed in `IQFT.simulate` (e.g. `K0 = np.sqrt(error) * np.eye(2)`).
Storing the square of the scalar keeps the embedding exact over the rationals. -/
structure ScaledMat where
  sqCoeff : ℚ
  mat : Mat2
  deriving DecidableEq, Repr

/-- A quantum error as added to the qiskit noise model: one of the three
library channels with its scalar parameter, or an explicit Kraus operator
list (`Kraus([K0, K1])`). -/
inductive QError where
  | depolarizingError (param : ℚ) (numQubits : Nat)
  | amplitudeDampingError (param : ℚ)
  | phaseDampingError (param : ℚ)
  | krausError (ops : List ScaledMat)
  deriving DecidableEq, Repr

/-- A qiskit `NoiseModel`: the list of quantum errors together with the
instruction names they are attached to, in insertion order. -/
structure NoiseModel where
  errors : List (QError × List String)
  deriving DecidableEq, Repr

/-- `NoiseModel()`: a fresh empty noise model. -/
def NoiseModel.empty : NoiseModel := ⟨[]⟩

/-- `NoiseModel.add_all_qubit_quantum_error(error, instructions)`. -/
def NoiseModel.addAllQubitQuantumError (nm : NoiseModel) (e : QError)
    (instructions : List String) : NoiseModel :=
  ⟨nm.errors ++ [(e, instructions)]⟩

/-- Python dictionary subscript `d[key]` on an optional dictionary, modelled as
an association list: `TypeError` when the dictionary is `None`, `KeyError`
when the key is missing. -/
def dictGet (d : Option (List (String × ℚ))) (key : String) : Except PyError ℚ :=
  match d with
  | none => .error .typeError
  | some l =>
    match l.lookup key with
    | none => .error (.keyError key)
    | some v => .ok v

/-- Lines 65-88 of `IQFT.simulate`: construction of the noise model.
`noise_model` is `None` unless `self.noise`; with noise it starts as an empty
`NoiseModel()` and the `if/elif` chain on `self.noise_type` adds the channel
for the five recognized labels, attaching it to the `h` instruction; an
unrecognized label leaves the model empty.  For Bit flip and Phase flip the
Kraus pair is built explicitly as `K0 = sqrt(p) * I` and `K1 = sqrt(1-p) * X`
(respectively `Z`). -/
def mkNoiseModel (noise : Bool) (noiseType : Option String)
    (noiseOptions : Option (List (String × ℚ))) :
    Except PyError (Option NoiseModel) :=
  if noise then
    if noiseType = some "Depolarizing" then do
      let p ← dictGet noiseOptions "depolarizing"
      pure (some (NoiseModel.empty.addAllQubitQuantumError
        (.depolarizingError p 1) ["h"]))
    else if noiseType = some "Amplitude Damping" then do
      let p ← dictGet noiseOptions "amplitude_damping"
      pure (some (NoiseModel.empty.addAllQubitQuantumError
        (.amplitudeDampingError p) ["h"]))
    else if noiseType = some "Phase Damping" then do
      let p ← dictGet noiseOptions "phase_damping"
      pure (some (NoiseModel.empty.addAllQubitQuantumError
        (.phaseDampingError p) ["h"]))
    else if noiseType = some "Bit flip" then do
      let p ← dictGet noiseOptions "bit_flip"
      pure (some (NoiseModel.empty.addAllQubitQuantumError
        (.krausError [⟨p, eye2⟩, ⟨1 - p, xMat⟩]) ["h"]))
    else if noiseType = some "Phase flip" then do
      let p ← dictGet noiseOptions "phase_flip"
      pure (some (NoiseModel.empty.addAllQubitQuantumError
        (.krausError [⟨p, eye2⟩, ⟨1 - p, zMat⟩]) ["h"]))
    else pure (some NoiseModel.empty)
  else pure none

/-- The kind of final state a simulator run produces. -/
inductive StateKind where
  | statevector
  | densityMatrix
  deriving DecidableEq, Repr

/-- The backend `target` object stored by `simulate` (`statevector.target` or
`aer.target`), identified by which backend it came from. -/
inductive BackendTarget where
  | statevectorTarget
  | aerTarget
  deriving DecidableEq, Repr

/-- A final quantum state, identified symbolically by the run that produced
it: the statevector of an ideal run of a circuit, or the density matrix of a
run of a circuit under an optional noise model.  The numeric backend evolution
is outside the repository; this names its outputs exactly. -/
inductive QState where
  | statevectorOf (circuit : List Gate)
  | densityMatrixOf (circuit : List Gate) (nm : Option NoiseModel)
  deriving DecidableEq, Repr

/-- A measurement-count distribution, identified symbolically by the run that
sampled it (circuit, optional noise model, shot count). -/
inductive Counts where
  | sampledCounts (circuit : List Gate) (nm : Option NoiseModel) (shots : Nat)
  deriving DecidableEq, Repr

/-- A probability vector, the `probabilities()` of a final state. -/
inductive Probs where
  | probabilitiesOf (st : QState)
  deriving DecidableEq, Repr

/-- One backend execution performed by `simulate`: which noise model the
backend was constructed with (`none` for the ideal `StatevectorSimulator`),
the circuit run, the shot count, what kind of state was read off, and whether
`get_counts` was read from the result. -/
structure RunRecord where
  noiseModel : Option NoiseModel
  circuit : List Gate
  shots : Nat
  stateKind : StateKind
  countsRead : Bool
  deriving DecidableEq, Repr

/-- The fields of an `IQFT` object (`src/utils/iqft.py`, `__init__`). -/
structure IQFTData where
  n : Nat
  state : String
  noise : Bool
  noiseType : Option String
  noiseOptions : Option (List (String × ℚ))
  measure : Bool
  comparison : Bool
  qc : Option (List Gate)
  resulting_state : Option QState
  resulting_probabilities : Option Probs
  resulting_counts : Option Counts
  target : Option BackendTarget
  comp_counts : Option (Counts × Counts)
  comp_fidelity : Option (QState × QState)
  deriving DecidableEq, Repr

/-- `IQFT.__init__`: stores the constructor arguments and sets every result
field (and `qc` and `target`) to `None`. -/
def IQFT.init (n : Nat) (state : String) (noise : Bool) (noiseType : Option String)
    (noiseOptions : Option (List (String × ℚ))) (meas comparison : Bool) :
    IQFTData :=
  { n := n, state := state, noise := noise, noiseType := noiseType,
    noiseOptions := noiseOptions, measure := meas, comparison := comparison,
    qc := none, resulting_state := none, resulting_probabilities := none,
    resulting_counts := none, target := none, comp_counts := none,
    comp_fidelity := none }

/-- `IQFT.build_iqft`: builds the circuit with `add_iqft_circuit` and stores it
in `self.qc`.  The circuit-diagram rendering side effect is out of scope. -/
def buildIqft (s : IQFTData) : Except PyError IQFTData :=
  match addIqftCircuit s.n s.state s.noise s.measure with
  | .error e => .error e
  | .ok c => .ok { s with qc := some c }

/-- Transpilation is modelled as the identity on the gate list: `transpile`
returns an equivalent circuit for the backend, and both comparison runs
transpile the same `self.qc`. -/
def transpile (c : List Gate) : List Gate := c

/-- `IQFT.simulate` (lines 64-124 of `src/utils/iqft.py`).  Returns the updated
object together with the list of backend executions performed.  Backend result
access is modelled faithfully to the data each run stores: reading
`['density_matrix']` from a run whose circuit lacks the `save_density_matrix`
instruction is a `KeyError`; `get_counts` reads the sampled counts of the run.
Calling `transpile` on a `qc` that is still `None` is a `TypeError`. -/
def simulate (s : IQFTData) : Except PyError (IQFTData × List RunRecord) :=
  match mkNoiseModel s.noise s.noiseType s.noiseOptions with
  | .error e => .error e
  | .ok nmOpt =>
    match s.qc with
    | none => .error .typeError
    | some qc =>
      if s.comparison then
        let idealCirc := transpile qc
        let noisyCirc := transpile qc
        if Gate.saveDensityMatrix ∈ noisyCirc then
          .ok ({ s with
              comp_counts := some (Counts.sampledCounts idealCirc none 1024,
                Counts.sampledCounts noisyCirc nmOpt 1024),
              comp_fidelity := some (QState.statevectorOf idealCirc,
                QState.densityMatrixOf noisyCirc nmOpt) },
            [⟨none, idealCirc, 1024, .statevector, true⟩,
             ⟨nmOpt, noisyCirc, 1024, .densityMatrix, true⟩])
        else .error (.keyError "density_matrix")
      else
        if s.noise = false then
          let circ := transpile qc
          let st := QState.statevectorOf circ
          .ok ({ s with
              target := some .statevectorTarget,
              resulting_state := some st,
              resulting_probabilities := some (.probabilitiesOf st),
              resulting_counts :=
                if s.measure then some (.sampledCounts circ none 1024)
                else s.resulting_counts },
            [⟨none, circ, 1024, .statevector, s.measure⟩])
        else
          let circ := transpile qc
          if Gate.saveDensityMatrix ∈ circ then
            let st := QState.densityMatrixOf circ nmOpt
            .ok ({ s with
                target := some .aerTarget,
                resulting_state := some st,
                resulting_probabilities := some (.probabilitiesOf st),
                resulting_counts :=
                  if s.measure then some (.sampledCounts circ nmOpt 1024)
                  else s.resulting_counts },
              [⟨nmOpt, circ, 1024, .densityMatrix, s.measure⟩])
          else .error (.keyError "density_matrix")

/-- Accessor `IQFT.get_resulting_state`. -/
def getResultingState (s : IQFTData) : Option QState := s.resulting_state

/-- Accessor `IQFT.get_resulting_probabilities`. -/
def getResultingProbabilities (s : IQFTData) : Option Probs :=
  s.resulting_probabilities

/-- Accessor `IQFT.get_resulting_counts`. -/
def getResultingCounts (s : IQFTData) : Option Counts := s.resulting_counts

/-- Accessor `IQFT.get_comp_counts`. -/
def getCompCounts (s : IQFTData) : Option (Counts × Counts) := s.comp_counts

/-- Accessor `IQFT.get_comp_fidelity`. -/
def getCompFidelity (s : IQFTData) : Option (QState × QState) := s.comp_fidelity

/-- Errors a noise model attaches to a given instruction name (qiskit applies
an `add_all_qubit_quantum_error` entry at every gate whose instruction name is
in the entry's instruction list). -/
def NoiseModel.errorsFor (nm : NoiseModel) (instName : String) : List QError :=
  (nm.errors.filter fun pr => pr.2.contains instName).map Prod.fst

/-- One elementary operation of the density-matrix evolution: a unitary
conjugation by a gate, or the application of a quantum error's Kraus map at a
gate site. -/
inductive EvolutionOp where
  | unitaryConj (g : Gate)
  | krausApply (e : QError) (g : Gate)
  deriving DecidableEq, Repr

/-- Modelled from the spec (Simulation Engine, section 4.3): the backend
evolution applies every gate as a unitary conjugation, and at every gate whose
instruction name the noise model attaches errors to, additionally applies the
attached errors' Kraus maps.  With no noise model no Kraus map is ever
applied.  The function returns the ordered list of elementary operations the
evolution performs on the state. -/
def evolutionOps (nm : Option NoiseModel) (gates : List Gate) : List EvolutionOp :=
  gates.flatMap fun g =>
    EvolutionOp.unitaryConj g ::
      ((match nm with
        | none => ([] : List QError)
        | some m => m.errorsFor g.name).map fun e => EvolutionOp.krausApply e g)

/-- The slice of `QFTSimulator` state relevant to circuit building:
`self.current_simulation`. -/
structure SimulatorApp where
  current_simulation : Option IQFTData
  deriving DecidableEq, Repr

/-- `QFTSimulator.build_circuit` specialized to the IQFT algorithm branch
(lines 289-338 of `src/simulator.py`): parse `n` from the entry text with
`int`, raise `ValueError` when `n < 1 or n > 10`, otherwise construct a fresh
`IQFT` object, store it in `self.current_simulation`, and run `build_iqft` on
it.  Any exception is caught by the surrounding `try` and surfaced as an error
dialog, which we return as the second component; note the `IQFT` object is
assigned to `self.current_simulation` before `build_iqft` runs, so a failure
inside the build leaves the fresh object (with `qc = None`) stored, while a
failure before construction leaves the previous value untouched. -/
def buildCircuit (app : SimulatorApp) (nStr iqftEntry : String)
    (noiseVar : Bool) (noiseType : Option String)
    (noiseParams : Option (List (String × ℚ))) (meas comp : Bool) :
    SimulatorApp × Option PyError :=
  match pyInt nStr with
  | none => (app, some (.valueError "invalid literal for int"))
  | some n =>
    if n < 1 ∨ n > 10 then
      (app, some (.valueError "Number of qubits must be between 1 and 10"))
    else
      let s0 := IQFT.init n.toNat iqftEntry noiseVar noiseType noiseParams
        meas comp
      match buildIqft s0 with
      | .error e => ({ app with current_simulation := some s0 }, some e)
      | .ok s1 => ({ app with current_simulation := some s1 }, none)

/-
Specification-side definitions.  These follow the wording of the spec (and of
the claims) rather than the source, and exist to be compared with the
source-derived definitions above.
-/

/-- Phase-rotation layer as the claim C1 words it: the denominators are
`2 ^ k` where `k` starts at 1 and doubles after each qubit, so the qubit
visited `j`-th (qubits taken in reverse order) gets angle
`integer * pi / 2 ^ (2 ^ j)`. -/
def claimedPhaseLayer (n : Nat) (k : ℤ) : List Gate :=
  (List.range n).map fun j => Gate.p ((k : ℚ) / 2 ^ (2 ^ j)) (n - 1 - j)

/-- Phase-rotation layer as amended: the denominator itself starts at 1 and
doubles after each qubit, so the qubit visited `j`-th (qubits taken in reverse
order, i.e. qubit `n - 1 - j`) gets angle `integer * pi / 2 ^ j`. -/
def specPhaseLayer (n : Nat) (k : ℤ) : List Gate :=
  (List.range n).map fun j => Gate.p ((k : ℚ) / 2 ^ j) (n - 1 - j)

/-- The gate sequence claim C1 asserts the builder emits: Hadamards on every
qubit, the phase layer with denominators `2 ^ k` (`k` starting at 1 and
doubling), the swap network over the first `n / 2` pairs with barriers, and
the inverse rotation network. -/
def claimedIqftCore (n : Nat) (k : ℤ) : List Gate :=
  ((List.range n).map Gate.h)
    ++ claimedPhaseLayer n k
    ++ ((List.range (n / 2)).flatMap fun q =>
        [Gate.swap q (n - q - 1), Gate.barrier])
    ++ ((List.range n).flatMap fun t =>
        ((List.range t).reverse.map fun c =>
          Gate.cp (-(1 : ℚ) / 2 ^ (t - c)) c t) ++ [Gate.h t])

/-- The amended gate sequence: as `claimedIqftCore` but with the corrected
phase layer whose denominator starts at 1 and doubles after each qubit. -/
def specIqftCore (n : Nat) (k : ℤ) : List Gate :=
  ((List.range n).map Gate.h)
    ++ specPhaseLayer n k
    ++ ((List.range (n / 2)).flatMap fun q =>
        [Gate.swap q (n - q - 1), Gate.barrier])
    ++ ((List.range n).flatMap fun t =>
        ((List.range t).reverse.map fun c =>
          Gate.cp (-(1 : ℚ) / 2 ^ (t - c)) c t) ++ [Gate.h t])

/-- The spec's Kraus pair for the bit-flip channel:
`K0 = sqrt(p) * I`, `K1 = sqrt(1-p) * X`. -/
def specBitflipKraus (p : ℚ) : List ScaledMat := [⟨p, eye2⟩, ⟨1 - p, xMat⟩]

/-- The spec's Kraus pair for the phase-flip channel:
`K0 = sqrt(p) * I`, `K1 = sqrt(1-p) * Z`. -/
def specPhaseflipKraus (p : ℚ) : List ScaledMat := [⟨p, eye2⟩, ⟨1 - p, zMat⟩]

/-- The five recognized noise-type labels paired with the snake-cased
dictionary key each branch of `simulate` reads its parameter from. -/
def noiseTypeKeys : List (String × String) :=
  [("Depolarizing", "depolarizing"), ("Amplitude Damping", "amplitude_damping"),
   ("Phase Damping", "phase_damping"), ("Bit flip", "bit_flip"),
   ("Phase flip", "phase_flip")]

example : pyInt "-1" = some (-1) := by decide
example : pyInt " 42 " = some 42 := by decide
example : pyInt "1_0" = some 10 := by decide
example : pyInt "1__0" = none := by decide
example : pyInt "abc" = none := by decide
example : pyInt "" = none := by decide
example : iqftCore 1 1 = [Gate.h 0, Gate.p 1 0, Gate.h 0] := by
  norm_num [iqftCore, hLayer, phaseLayer, phaseLoop, swapLayer, iqftRotations,
    List.range_succ]
example : iqftCore 2 2 =
    [Gate.h 0, Gate.h 1, Gate.p 2 1, Gate.p 1 0,
     Gate.swap 0 1, Gate.barrier,
     Gate.h 0, Gate.cp (-(1/2)) 0 1, Gate.h 1] := by
  norm_num [iqftCore, hLayer, phaseLayer, phaseLoop, swapLayer, iqftRotations,
    List.range_succ]

/-
Helper lemmas.
-/

/-- Closed form of the phase loop on a reversed range: the qubit visited
`j`-th is `n - 1 - j` and its denominator is the start value times `2 ^ j`. -/
lemma phaseLoop_reverse_range (k : ℤ) :
    ∀ (n c : Nat), phaseLoop k (List.range n).reverse c =
      (List.range n).map fun j =>
        Gate.p ((k : ℚ) / ((c : ℚ) * 2 ^ j)) (n - 1 - j) := by
  intro n
  induction n with
  | zero => intro c; simp [phaseLoop]
  | succ m ih =>
    intro c
    conv_lhs => rw [List.range_succ]
    rw [List.reverse_append, List.reverse_singleton, List.singleton_append]
    conv_rhs => rw [List.range_succ_eq_map]
    simp only [phaseLoop, List.map_cons, List.map_map]
    rw [ih (c * 2)]
    refine congrArg₂ _ ?_ (List.map_congr_left fun j hj => ?_)
    · norm_num
    · simp only [Function.comp_apply]
      congr 1
      · push_cast [Nat.succ_eq_add_one, pow_succ]
        ring
      · omega

/-- The source's phase layer equals the amended spec's phase layer. -/
lemma phaseLayer_eq_spec (n : Nat) (k : ℤ) :
    phaseLayer n k = specPhaseLayer n k := by
  rw [phaseLayer, phaseLoop_reverse_range k n 1, specPhaseLayer]
  exact List.map_congr_left fun j hj => by norm_num

/-- Every gate the phase loop emits is a phase gate. -/
lemma mem_phaseLoop (k : ℤ) {g : Gate} :
    ∀ (l : List Nat) (c : Nat), g ∈ phaseLoop k l c → ∃ a q, g = Gate.p a q := by
  intro l
  induction l with
  | nil => intro c h; simp [phaseLoop] at h
  | cons q qs ih =>
    intro c h
    simp only [phaseLoop, List.mem_cons] at h
    rcases h with h | h
    · exact ⟨_, _, h⟩
    · exact ih _ h

/-- Neither terminal marker occurs among the algorithm-specific gates. -/
lemma markers_not_mem_core (n : Nat) (k : ℤ) :
    Gate.saveDensityMatrix ∉ iqftCore n k ∧ Gate.measureAll ∉ iqftCore n k := by
  constructor <;>
  · intro h
    simp only [iqftCore, List.mem_append, hLayer, swapLayer, iqftRotations,
      List.mem_map, List.mem_flatMap, List.mem_cons, phaseLayer] at h
    rcases h with ((⟨q, _, hq⟩ | h) | ⟨q, _, hq⟩) | ⟨t, _, ht⟩
    · exact Gate.noConfusion hq
    · obtain ⟨a, q, hq⟩ := mem_phaseLoop k _ _ h
      exact Gate.noConfusion hq
    · rcases hq with hq | hq | hq
      · exact Gate.noConfusion hq
      · exact Gate.noConfusion hq
      · simp at hq
    · rcases ht with ⟨c, _, hc⟩ | hq | hq
      · exact Gate.noConfusion hc
      · exact Gate.noConfusion hq
      · simp at hq

/-
Claim theorems.
-/

/-- C1 (counterexample): at `n = 1` with state string `"1"` the builder emits
`[h 0, p (pi) 0, h 0]` — the first phase rotation divides by 1, not by
`2 ^ k` with `k` starting at 1 — so the emitted sequence differs from the
sequence the claim describes (`[h 0, p (pi/2) 0, h 0]`). -/
theorem iqft_claimed_sequence_counterexample :
    addIqftCircuit 1 "1" false false = .ok (iqftCore 1 1) ∧
    iqftCore 1 1 ≠ claimedIqftCore 1 1 := by
  constructor
  · rfl
  · norm_num [iqftCore, claimedIqftCore, claimedPhaseLayer, hLayer, phaseLayer,
      phaseLoop, swapLayer, iqftRotations, List.range_succ]

/-- C1 (amended): for every qubit count and every state string parsing to an
integer `k`, the builder emits exactly: Hadamards on every qubit; then, for
each qubit in reverse order, a phase rotation of angle `k * pi / d` where the
denominator `d` starts at 1 and doubles after each qubit; then the swap
network with barriers; then the inverse rotation network; then the optional
terminal markers. -/
theorem iqft_emitted_gate_sequence (n : Nat) (h1 : 1 ≤ n) (h2 : n ≤ 10)
    (state : String) (k : ℤ) (hk : pyInt state = some k) (noise meas : Bool) :
    addIqftCircuit n state noise meas =
      .ok (specIqftCore n k
        ++ (if noise then [Gate.saveDensityMatrix] else [])
        ++ (if meas then [Gate.measureAll] else [])) := by
  simp only [addIqftCircuit, hk, iqftGates, iqftCore, specIqftCore, hLayer,
    swapLayer, iqftRotations, phaseLayer_eq_spec]

/-- C1 (amended) witness at `n = 2`, state `"2"`. -/
theorem iqft_emitted_gate_sequence_witness :
    (1 ≤ 2 ∧ 2 ≤ 10 ∧ pyInt "2" = some 2) ∧
    addIqftCircuit 2 "2" false true =
      .ok (specIqftCore 2 2 ++ [] ++ [Gate.measureAll]) :=
  ⟨⟨by decide, by decide, by decide⟩,
    iqft_emitted_gate_sequence 2 (by decide) (by decide) "2" 2 (by decide)
      false true⟩

/-- C2: for the Bit flip and Phase flip labels the noise model is built from
exactly the Kraus pair `K0 = sqrt(p) * I` and `K1 = sqrt(1-p) * X`
(respectively `Z`), attached to the Hadamard instruction: the parameter `p`
weights the identity branch. -/
theorem flip_channels_weight_identity_branch (p : ℚ)
    (h0 : 0 ≤ p) (h1 : p ≤ 1) :
    mkNoiseModel true (some "Bit flip") (some [("bit_flip", p)]) =
      .ok (some ⟨[(QError.krausError (specBitflipKraus p), ["h"])]⟩) ∧
    mkNoiseModel true (some "Phase flip") (some [("phase_flip", p)]) =
      .ok (some ⟨[(QError.krausError (specPhaseflipKraus p), ["h"])]⟩) :=
  ⟨rfl, rfl⟩

/-- C2 witness at `p = 1`. -/
theorem flip_channels_weight_identity_branch_witness :
    ((0 : ℚ) ≤ 1 ∧ (1 : ℚ) ≤ 1) ∧
    mkNoiseModel true (some "Bit flip") (some [("bit_flip", 1)]) =
      .ok (some ⟨[(QError.krausError (specBitflipKraus 1), ["h"])]⟩) ∧
    mkNoiseModel true (some "Phase flip") (some [("phase_flip", 1)]) =
      .ok (some ⟨[(QError.krausError (specPhaseflipKraus 1), ["h"])]⟩) :=
  ⟨⟨zero_le_one, le_refl 1⟩,
    (flip_channels_weight_identity_branch 1 zero_le_one (le_refl 1)).1,
    (flip_channels_weight_identity_branch 1 zero_le_one (le_refl 1)).2⟩

/-- C7: the builder's output is the algorithm-specific gates followed by the
density-matrix-capture marker exactly when noise is requested, followed by the
all-qubit measurement gate exactly when measurement is requested; neither
marker occurs anywhere else, so nothing follows them. -/
theorem terminal_markers (n : Nat) (k : ℤ) (noise meas : Bool) :
    iqftGates n k noise meas = iqftCore n k
        ++ (if noise then [Gate.saveDensityMatrix] else [])
        ++ (if meas then [Gate.measureAll] else []) ∧
    (Gate.saveDensityMatrix ∈ iqftGates n k noise meas ↔ noise = true) ∧
    (Gate.measureAll ∈ iqftGates n k noise meas ↔ meas = true) ∧
    Gate.saveDensityMatrix ∉ iqftCore n k ∧ Gate.measureAll ∉ iqftCore n k := by
  obtain ⟨hs, hm⟩ := markers_not_mem_core n k
  refine ⟨rfl, ?_, ?_, hs, hm⟩
  · cases noise <;> cases meas <;>
      simp [iqftGates, List.mem_append, hs]
  · cases noise <;> cases meas <;>
      simp [iqftGates, List.mem_append, hm]

/-- C4 (counterexample): the state string `"-1"` parses to the negative
integer `-1`, yet building the 1-qubit IQFT circuit succeeds — there is no
negativity or range check, so the claimed `InvalidStateError` is never
raised. -/
theorem iqft_state_validation_counterexample :
    pyInt "-1" = some (-1) ∧ (-1 : ℤ) < 0 ∧
    addIqftCircuit 1 "-1" false false = .ok (iqftGates 1 (-1) false false) :=
  ⟨by decide, by decide, rfl⟩

/-- C4 (amended): building the IQFT circuit fails exactly when the state
string does not parse as an integer (the `ValueError` raised by `int`); every
parseable integer — including negative ones and ones at least `2 ^ n` — is
accepted, with no range check at all. -/
theorem iqft_state_parse_failure_iff (n : Nat) (state : String)
    (noise meas : Bool) :
    (pyInt state = none →
      addIqftCircuit n state noise meas =
        .error (.valueError "invalid literal for int")) ∧
    (∀ k : ℤ, pyInt state = some k →
      addIqftCircuit n state noise meas = .ok (iqftGates n k noise meas)) := by
  constructor
  · intro h; simp [addIqftCircuit, h]
  · intro k h; simp [addIqftCircuit, h]

/-- C4 (amended) witness: `"abc"` fails to parse and the build errors; `"7"`
parses (and `7 ≥ 2 ^ 1`) and the build succeeds. -/
theorem iqft_state_parse_failure_iff_witness :
    (pyInt "abc" = none ∧
      addIqftCircuit 1 "abc" false false =
        .error (.valueError "invalid literal for int")) ∧
    (pyInt "7" = some 7 ∧
      addIqftCircuit 1 "7" false false = .ok (iqftGates 1 7 false false)) :=
  ⟨⟨by decide, (iqft_state_parse_failure_iff 1 "abc" false false).1 (by decide)⟩,
   ⟨by decide, (iqft_state_parse_failure_iff 1 "7" false false).2 7 (by decide)⟩⟩

/-- C8: when the qubit-count entry parses to an integer outside 1..10, the
build fails with the dedicated qubit-count error (raised before the `IQFT`
object is ever constructed) and the application state is returned untouched:
no circuit is produced or retained. -/
theorem invalid_qubit_count_rejected (app : SimulatorApp) (nStr : String)
    (m : ℤ) (hm : pyInt nStr = some m) (hrange : m < 1 ∨ m > 10)
    (iqftEntry : String) (noiseVar : Bool) (noiseType : Option String)
    (noiseParams : Option (List (String × ℚ))) (meas comp : Bool) :
    buildCircuit app nStr iqftEntry noiseVar noiseType noiseParams meas comp =
      (app, some (.valueError "Number of qubits must be between 1 and 10")) := by
  simp only [buildCircuit, hm]
  rw [if_pos hrange]

/-- C8 witness at `n = 0` and `n = 11`. -/
theorem invalid_qubit_count_rejected_witness :
    buildCircuit ⟨none⟩ "0" "0" false none none false false =
      (⟨none⟩, some (.valueError "Number of qubits must be between 1 and 10")) ∧
    buildCircuit ⟨none⟩ "11" "0" false none none false false =
      (⟨none⟩, some (.valueError "Number of qubits must be between 1 and 10")) :=
  ⟨invalid_qubit_count_rejected ⟨none⟩ "0" 0 (by decide) (by decide)
      "0" false none none false false,
   invalid_qubit_count_rejected ⟨none⟩ "11" 11 (by decide) (by decide)
      "0" false none none false false⟩

/-- C5 (counterexample): with noise requested but the noise channel absent
(`noise_type = None`, `noise_options = None`), `simulate()` on a built
1-qubit circuit raises no error at all — it runs the noisy density-matrix
path with an empty noise model — contradicting the claimed `SimulationError`. -/
theorem missing_channel_no_error_counterexample :
    simulate { IQFT.init 1 "0" true none none false false with
        qc := some (iqftGates 1 0 true false) } =
      .ok ({ IQFT.init 1 "0" true none none false false with
          qc := some (iqftGates 1 0 true false),
          target := some .aerTarget,
          resulting_state := some (.densityMatrixOf (iqftGates 1 0 true false)
            (some NoiseModel.empty)),
          resulting_probabilities := some (.probabilitiesOf
            (.densityMatrixOf (iqftGates 1 0 true false)
              (some NoiseModel.empty))) },
        [⟨some NoiseModel.empty, iqftGates 1 0 true false, 1024,
          .densityMatrix, false⟩]) := rfl

/-- C5 (amended): when noise is requested but the noise channel is absent
(`noise_type = None`), `simulate()` raises no error: it builds an empty noise
model and proceeds on the noisy density-matrix path with it. -/
theorem missing_channel_proceeds (s : IQFTData) (c : List Gate)
    (hn : s.noise = true) (ht : s.noiseType = none)
    (hqc : s.qc = some c) (hcomp : s.comparison = false)
    (hsave : Gate.saveDensityMatrix ∈ c) :
    simulate s = .ok ({ s with
        target := some .aerTarget,
        resulting_state := some (.densityMatrixOf c (some NoiseModel.empty)),
        resulting_probabilities := some (.probabilitiesOf
          (.densityMatrixOf c (some NoiseModel.empty))),
        resulting_counts := if s.measure
          then some (.sampledCounts c (some NoiseModel.empty) 1024)
          else s.resulting_counts },
      [⟨some NoiseModel.empty, c, 1024, .densityMatrix, s.measure⟩]) := by
  have hnm : mkNoiseModel true s.noiseType s.noiseOptions =
      .ok (some NoiseModel.empty) := by rw [ht]; rfl
  simp [simulate, hnm, hqc, hcomp, hn, transpile, hsave]

/-- C5 (amended) witness: concrete run with measurement enabled. -/
theorem missing_channel_proceeds_witness :
    simulate { IQFT.init 1 "0" true none none true false with
        qc := some (iqftGates 1 0 true true) } =
      .ok ({ IQFT.init 1 "0" true none none true false with
          qc := some (iqftGates 1 0 true true),
          target := some .aerTarget,
          resulting_state := some (.densityMatrixOf (iqftGates 1 0 true true)
            (some NoiseModel.empty)),
          resulting_probabilities := some (.probabilitiesOf
            (.densityMatrixOf (iqftGates 1 0 true true)
              (some NoiseModel.empty))),
          resulting_counts := some (.sampledCounts (iqftGates 1 0 true true)
            (some NoiseModel.empty) 1024) },
        [⟨some NoiseModel.empty, iqftGates 1 0 true true, 1024,
          .densityMatrix, true⟩]) :=
  missing_channel_proceeds
    { IQFT.init 1 "0" true none none true false with
        qc := some (iqftGates 1 0 true true) }
    (iqftGates 1 0 true true) rfl rfl rfl rfl (by decide)

/-- C3: in comparison mode `simulate()` executes exactly two backend runs over
the identical built circuit — an ideal statevector run and a noisy
density-matrix run — both with 1024 shots and with counts read from both
results regardless of the `measure` flag, and stores the paired counts and
paired states. -/
theorem comparison_runs_twice_and_samples (s : IQFTData) (c : List Gate)
    (nmOpt : Option NoiseModel)
    (hnm : mkNoiseModel s.noise s.noiseType s.noiseOptions = .ok nmOpt)
    (hqc : s.qc = some c) (hcomp : s.comparison = true)
    (hsave : Gate.saveDensityMatrix ∈ c) :
    simulate s = .ok ({ s with
        comp_counts := some (Counts.sampledCounts c none 1024,
          Counts.sampledCounts c nmOpt 1024),
        comp_fidelity := some (QState.statevectorOf c,
          QState.densityMatrixOf c nmOpt) },
      [⟨none, c, 1024, .statevector, true⟩,
       ⟨nmOpt, c, 1024, .densityMatrix, true⟩]) := by
  simp [simulate, hnm, hqc, hcomp, transpile, hsave]

/-- C3 witness: a concrete comparison run with the measure flag off, a Bit
flip channel of parameter 1, over the built 1-qubit circuit. -/
theorem comparison_runs_twice_and_samples_witness :
    simulate { IQFT.init 1 "0" true (some "Bit flip")
        (some [("bit_flip", 1)]) false true with
        qc := some (iqftGates 1 0 true false) } =
      .ok ({ IQFT.init 1 "0" true (some "Bit flip")
          (some [("bit_flip", 1)]) false true with
          qc := some (iqftGates 1 0 true false),
          comp_counts := some
            (Counts.sampledCounts (iqftGates 1 0 true false) none 1024,
             Counts.sampledCounts (iqftGates 1 0 true false)
               (some ⟨[(QError.krausError (specBitflipKraus 1), ["h"])]⟩) 1024),
          comp_fidelity := some
            (QState.statevectorOf (iqftGates 1 0 true false),
             QState.densityMatrixOf (iqftGates 1 0 true false)
               (some ⟨[(QError.krausError (specBitflipKraus 1), ["h"])]⟩)) },
        [⟨none, iqftGates 1 0 true false, 1024, .statevector, true⟩,
         ⟨some ⟨[(QError.krausError (specBitflipKraus 1), ["h"])]⟩,
          iqftGates 1 0 true false, 1024, .densityMatrix, true⟩]) :=
  comparison_runs_twice_and_samples
    { IQFT.init 1 "0" true (some "Bit flip") (some [("bit_flip", 1)])
        false true with qc := some (iqftGates 1 0 true false) }
    (iqftGates 1 0 true false)
    (some ⟨[(QError.krausError (specBitflipKraus 1), ["h"])]⟩)
    rfl rfl rfl (by decide)

/-- With a noise model holding a single error attached to the `h` instruction,
the evolution applies the Kraus map exactly after Hadamard gates and applies
every other gate purely unitarily. -/
lemma evolutionOps_single_h (e : QError) (gates : List Gate) :
    evolutionOps (some ⟨[(e, ["h"])]⟩) gates =
      gates.flatMap fun g =>
        if g.isH then [EvolutionOp.unitaryConj g, EvolutionOp.krausApply e g]
        else [EvolutionOp.unitaryConj g] := by
  unfold evolutionOps
  refine congrArg (List.flatMap gates) (funext fun g => ?_)
  cases g <;> rfl

/-- Evolution under the empty noise model performs exactly the operations of
noise-free evolution: a unitary conjugation per gate and nothing else. -/
lemma evolutionOps_empty_noise (gates : List Gate) :
    evolutionOps (some NoiseModel.empty) gates = evolutionOps none gates ∧
    evolutionOps none gates = gates.map EvolutionOp.unitaryConj := by
  constructor
  · rfl
  · unfold evolutionOps
    induction gates with
    | nil => rfl
    | cons g gs ih =>
      rw [List.flatMap_cons, ih]
      rfl

/-- Characterization of a successful `build_iqft`: the circuit was built from
the object's own fields and stored in `qc`, all other fields unchanged. -/
lemma buildIqft_ok (s s1 : IQFTData) (hb : buildIqft s = .ok s1) :
    ∃ c, addIqftCircuit s.n s.state s.noise s.measure = .ok c ∧
      s1 = { s with qc := some c } := by
  unfold buildIqft at hb
  cases hac : addIqftCircuit s.n s.state s.noise s.measure <;> rw [hac] at hb
  · exact absurd hb (by simp)
  · injection hb with hb
    exact ⟨_, rfl, hb.symm⟩

/-- Frame property of comparison mode: a successful comparison-mode
`simulate()` writes only the comparison fields, leaving `resulting_state`,
`resulting_probabilities` and `resulting_counts` exactly as they were. -/
lemma simulate_comparison_frame (s s2 : IQFTData) (tr : List RunRecord)
    (hcomp : s.comparison = true) (hsim : simulate s = .ok (s2, tr)) :
    s2.resulting_state = s.resulting_state ∧
    s2.resulting_probabilities = s.resulting_probabilities ∧
    s2.resulting_counts = s.resulting_counts := by
  unfold simulate at hsim
  cases hm : mkNoiseModel s.noise s.noiseType s.noiseOptions <;> rw [hm] at hsim
  · exact absurd hsim (by simp)
  · cases hq : s.qc <;> rw [hq] at hsim
    · exact absurd hsim (by simp)
    · rw [hcomp] at hsim
      simp only [if_true] at hsim
      split at hsim
      · simp only [Except.ok.injEq, Prod.mk.injEq] at hsim
        obtain ⟨h2, _⟩ := hsim
        subst h2
        exact ⟨rfl, rfl, rfl⟩
      · exact absurd hsim (by simp)

/-- C9: after a build in comparison mode followed by a successful comparison
`simulate()`, the single-run accessors `get_resulting_state`,
`get_resulting_probabilities` and `get_resulting_counts` all still return
`None`: comparison mode writes only the comparison pairs. -/
theorem comparison_single_run_accessors_none (n : Nat) (st : String)
    (noise : Bool) (nt : Option String) (opts : Option (List (String × ℚ)))
    (meas : Bool) (s1 s2 : IQFTData) (tr : List RunRecord)
    (hb : buildIqft (IQFT.init n st noise nt opts meas true) = .ok s1)
    (hsim : simulate s1 = .ok (s2, tr)) :
    getResultingState s2 = none ∧ getResultingProbabilities s2 = none ∧
    getResultingCounts s2 = none := by
  obtain ⟨c, hac, hs1⟩ := buildIqft_ok _ _ hb
  subst hs1
  obtain ⟨h1, h2, h3⟩ := simulate_comparison_frame _ _ _ rfl hsim
  exact ⟨h1, h2, h3⟩

/-- C9 witness: a concrete comparison-mode build and simulate, after which all
three single-run accessors return `None`. -/
theorem comparison_single_run_accessors_none_witness :
    getResultingState
      ({ IQFT.init 1 "0" true (some "Phase flip") (some [("phase_flip", 1)])
          false true with
          qc := some (iqftGates 1 0 true false),
          comp_counts := some
            (Counts.sampledCounts (iqftGates 1 0 true false) none 1024,
             Counts.sampledCounts (iqftGates 1 0 true false)
              (some ⟨[(QError.krausError (specPhaseflipKraus 1), ["h"])]⟩) 1024),
          comp_fidelity := some
            (QState.statevectorOf (iqftGates 1 0 true false),
             QState.densityMatrixOf (iqftGates 1 0 true false)
              (some ⟨[(QError.krausError (specPhaseflipKraus 1), ["h"])]⟩)) })
      = none ∧
    getResultingProbabilities
      ({ IQFT.init 1 "0" true (some "Phase flip") (some [("phase_flip", 1)])
          false true with
          qc := some (iqftGates 1 0 true false),
          comp_counts := some
            (Counts.sampledCounts (iqftGates 1 0 true false) none 1024,
             Counts.sampledCounts (iqftGates 1 0 true false)
              (some ⟨[(QError.krausError (specPhaseflipKraus 1), ["h"])]⟩) 1024),
          comp_fidelity := some
            (QState.statevectorOf (iqftGates 1 0 true false),
             QState.densityMatrixOf (iqftGates 1 0 true false)
              (some ⟨[(QError.krausError (specPhaseflipKraus 1), ["h"])]⟩)) })
      = none ∧
    getResultingCounts
      ({ IQFT.init 1 "0" true (some "Phase flip") (some [("phase_flip", 1)])
          false true with
          qc := some (iqftGates 1 0 true false),
          comp_counts := some
            (Counts.sampledCounts (iqftGates 1 0 true false) none 1024,
             Counts.sampledCounts (iqftGates 1 0 true false)
              (some ⟨[(QError.krausError (specPhaseflipKraus 1), ["h"])]⟩) 1024),
          comp_fidelity := some
            (QState.statevectorOf (iqftGates 1 0 true false),
             QState.densityMatrixOf (iqftGates 1 0 true false)
              (some ⟨[(QError.krausError (specPhaseflipKraus 1), ["h"])]⟩)) })
      = none :=
  comparison_single_run_accessors_none 1 "0" true (some "Phase flip")
    (some [("phase_flip", 1)]) false
    { IQFT.init 1 "0" true (some "Phase flip") (some [("phase_flip", 1)])
        false true with qc := some (iqftGates 1 0 true false) }
    _ _ rfl rfl

/-- C6: for each of the five recognized channel labels, the built noise model
holds exactly one error attached to exactly the `h` instruction, so the
evolution applies the channel's Kraus map at every Hadamard gate site and at
no other site — every non-Hadamard gate evolves purely unitarily. -/
theorem noise_applied_exactly_at_hadamards (t key : String)
    (hkey : (t, key) ∈ noiseTypeKeys) (p : ℚ) (gates : List Gate) :
    ∃ e nm, mkNoiseModel true (some t) (some [(key, p)]) = .ok (some nm) ∧
      nm.errors = [(e, ["h"])] ∧
      evolutionOps (some nm) gates = gates.flatMap fun g =>
        if g.isH then [EvolutionOp.unitaryConj g, EvolutionOp.krausApply e g]
        else [EvolutionOp.unitaryConj g] := by
  simp only [noiseTypeKeys, List.mem_cons, List.not_mem_nil, or_false,
    Prod.mk.injEq] at hkey
  rcases hkey with ⟨ht, hk⟩ | ⟨ht, hk⟩ | ⟨ht, hk⟩ | ⟨ht, hk⟩ | ⟨ht, hk⟩ <;>
    subst ht <;> subst hk
  · exact ⟨.depolarizingError p 1, _, rfl, rfl, evolutionOps_single_h _ gates⟩
  · exact ⟨.amplitudeDampingError p, _, rfl, rfl, evolutionOps_single_h _ gates⟩
  · exact ⟨.phaseDampingError p, _, rfl, rfl, evolutionOps_single_h _ gates⟩
  · exact ⟨.krausError (specBitflipKraus p), _, rfl, rfl,
      evolutionOps_single_h _ gates⟩
  · exact ⟨.krausError (specPhaseflipKraus p), _, rfl, rfl,
      evolutionOps_single_h _ gates⟩

/-- C6 witness: the Bit flip channel at `p = 1` over a two-gate circuit. -/
theorem noise_applied_exactly_at_hadamards_witness :
    ∃ e nm,
      mkNoiseModel true (some "Bit flip") (some [("bit_flip", 1)]) =
        .ok (some nm) ∧
      nm.errors = [(e, ["h"])] ∧
      evolutionOps (some nm) [Gate.h 0, Gate.barrier] =
        [Gate.h 0, Gate.barrier].flatMap fun g =>
          if g.isH then [EvolutionOp.unitaryConj g, EvolutionOp.krausApply e g]
          else [EvolutionOp.unitaryConj g] :=
  noise_applied_exactly_at_hadamards "Bit flip" "bit_flip" (by decide) 1
    [Gate.h 0, Gate.barrier]

/-- C10: with noise enabled and an unrecognized noise-type label, `simulate()`
raises no error: it silently runs the noisy density-matrix path with an empty
noise model, and the empty-model evolution performs exactly the operations of
noise-free evolution. -/
theorem unrecognized_noise_type_silent (s : IQFTData) (c : List Gate)
    (hn : s.noise = true) (hcomp : s.comparison = false)
    (ht : s.noiseType ∉ [some "Depolarizing", some "Amplitude Damping",
      some "Phase Damping", some "Bit flip", some "Phase flip"])
    (hqc : s.qc = some c) (hsave : Gate.saveDensityMatrix ∈ c) :
    simulate s = .ok ({ s with
        target := some .aerTarget,
        resulting_state := some (.densityMatrixOf c (some NoiseModel.empty)),
        resulting_probabilities := some (.probabilitiesOf
          (.densityMatrixOf c (some NoiseModel.empty))),
        resulting_counts := if s.measure
          then some (.sampledCounts c (some NoiseModel.empty) 1024)
          else s.resulting_counts },
      [⟨some NoiseModel.empty, c, 1024, .densityMatrix, s.measure⟩]) ∧
    evolutionOps (some NoiseModel.empty) c = evolutionOps none c ∧
    evolutionOps none c = c.map EvolutionOp.unitaryConj := by
  obtain ⟨he1, he2⟩ := evolutionOps_empty_noise c
  refine ⟨?_, he1, he2⟩
  simp only [List.mem_cons, List.not_mem_nil, or_false, not_or] at ht
  obtain ⟨h1, h2, h3, h4, h5⟩ := ht
  have hnm : mkNoiseModel true s.noiseType s.noiseOptions =
      .ok (some NoiseModel.empty) := by
    unfold mkNoiseModel
    rw [if_pos rfl, if_neg h1, if_neg h2, if_neg h3, if_neg h4, if_neg h5]
    rfl
  simp [simulate, hnm, hqc, hcomp, hn, transpile, hsave]

/-- C10 witness: noise type label `"Gaussian"` is not recognized; the noisy
path runs with the empty model and no error. -/
theorem unrecognized_noise_type_silent_witness :
    simulate { IQFT.init 1 "0" true (some "Gaussian")
        (some [("gaussian", 1)]) false false with
        qc := some (iqftGates 1 0 true false) } =
      .ok ({ IQFT.init 1 "0" true (some "Gaussian")
          (some [("gaussian", 1)]) false false with
          qc := some (iqftGates 1 0 true false),
          target := some .aerTarget,
          resulting_state := some (.densityMatrixOf (iqftGates 1 0 true false)
            (some NoiseModel.empty)),
          resulting_probabilities := some (.probabilitiesOf
            (.densityMatrixOf (iqftGates 1 0 true false)
              (some NoiseModel.empty))) },
        [⟨some NoiseModel.empty, iqftGates 1 0 true false, 1024,
          .densityMatrix, false⟩]) ∧
    evolutionOps (some NoiseModel.empty) (iqftGates 1 0 true false) =
      evolutionOps none (iqftGates 1 0 true false) ∧
    evolutionOps none (iqftGates 1 0 true false) =
      (iqftGates 1 0 true false).map EvolutionOp.unitaryConj :=
  unrecognized_noise_type_silent
    { IQFT.init 1 "0" true (some "Gaussian") (some [("gaussian", 1)])
        false false with qc := some (iqftGates 1 0 true false) }
    (iqftGates 1 0 true false) rfl rfl (by decide) rfl (by decide)
